import Mathlib

/-!
Verification of the RoArm M2 multi-robot control core: a shallow embedding of
the mission model, execution engine, scheduler and telemetry handling found in
`robot_control_frame.py` and `scheduler.py`, with theorems about the embedded
definitions.

Modelling conventions:
* Python floats are modelled as rationals (`ℚ`); the claims proved here are
  exact-arithmetic statements about the formulas in the code.
* Python dicts / JSON values are modelled by the inductive `Json`; the
  loosely typed step and frame records of the code are `Json.obj` values.
* Stateful methods become explicit state-passing functions; background
  threads and the cooperative cancellation event become explicit parameters
  (a count of live run threads, an index from which the stop flag is seen
  as set).
-/

namespace RoArm

/-- JSON-like values: the loosely typed data (command frames, mission steps,
file headers) that the Python code passes around as dicts produced by
`json.loads`. Numbers are modelled as rationals. -/
inductive Json where
  | null
  | bool (b : Bool)
  | num (q : ℚ)
  | str (s : String)
  | arr (elems : List Json)
  | obj (fields : List (String × Json))

/-- Lookup of a key in the field list of an object, mirroring Python
`dict.get(key)` returning `None` when absent (`json.loads` keeps one binding
per key, so first-match lookup agrees with dict lookup). -/
def lookupField : List (String × Json) → String → Option Json
  | [], _ => none
  | (k, v) :: rest, key => if k = key then some v else lookupField rest key

/-- Python `data.get(key)`: field lookup on an object, `none` on any
non-object or absent key. -/
def jget (data : Json) (key : String) : Option Json :=
  match data with
  | .obj fields => lookupField fields key
  | _ => none

/-- Python `key in data` for a dict. -/
def jhas (data : Json) (key : String) : Bool :=
  (jget data key).isSome

/-- Python `t_value == 1051` where `t_value = data.get("T")`: true exactly
when the value is the number 1051 (booleans and other values never compare
equal to 1051 in Python). -/
def isCode (code : ℚ) : Option Json → Bool
  | some (.num q) => q == code
  | _ => false

mutual

/-- Structural equality test on `Json` values, the equality Python applies to
dict keys (numeric equality is equality in `ℚ`). -/
def jsonBeq : Json → Json → Bool
  | .null, .null => true
  | .bool a, .bool b => a == b
  | .num a, .num b => a == b
  | .str a, .str b => a == b
  | .arr as, .arr bs => jsonBeqList as bs
  | .obj fs, .obj gs => jsonBeqFields fs gs
  | _, _ => false

/-- Elementwise `jsonBeq` on arrays. -/
def jsonBeqList : List Json → List Json → Bool
  | [], [] => true
  | a :: as, b :: bs => jsonBeq a b && jsonBeqList as bs
  | _, _ => false

/-- Elementwise `jsonBeq` on object field lists. -/
def jsonBeqFields : List (String × Json) → List (String × Json) → Bool
  | [], [] => true
  | (k₁, v₁) :: fs, (k₂, v₂) :: gs => k₁ == k₂ && jsonBeq v₁ v₂ && jsonBeqFields fs gs
  | _, _ => false

end

/-! ## Step classification (`get_step_type`, robot_control_frame.py lines 707-723) -/

/-- Transcription of `RobotControlFrame.get_step_type`: dispatch on the
message-type code `step.get("T")` and, for code 113, on the presence of both
pwm fields. Any non-numeric or unknown code falls through to `"other"`. -/
def get_step_type (step : Json) : String :=
  match jget step "T" with
  | some (.num q) =>
    if q = 104 then "movement"
    else if q = 113 then
      (if jhas step "pwm_a" && jhas step "pwm_b" then "suction" else "relay")
    else if q = 111 then "delay"
    else if q = 114 then "led"
    else if q = 210 then "torque"
    else if q = 112 then "dynamic_adaptation"
    else "other"
  | _ => "other"

/-- Step kinds as the specification names them. -/
inductive StepKind where
  | movement
  | suction
  | relay
  | delay
  | led
  | torque
  | dynamicAdaptation
  | other
  deriving DecidableEq

/-- Modelled from the spec wording of `classify(step) -> StepKind`: a pure
function of the message-type code and the presence of the two pwm fields
(code 104 → Movement; 113 with both pwm fields present → Suction else Relay;
111 → Delay; 114 → LED; 210 → Torque; 112 → DynamicAdaptation; anything
else → Other). Used only to compare against `get_step_type`. -/
def classify_spec (code : Option ℚ) (hasPwmA hasPwmB : Bool) : StepKind :=
  match code with
  | some q =>
    if q = 104 then .movement
    else if q = 113 then (if hasPwmA && hasPwmB then .suction else .relay)
    else if q = 111 then .delay
    else if q = 114 then .led
    else if q = 210 then .torque
    else if q = 112 then .dynamicAdaptation
    else .other
  | none => .other

/-- Rendering of a `StepKind` as the string literal `get_step_type` uses. -/
def StepKind.typeName : StepKind → String
  | .movement => "movement"
  | .suction => "suction"
  | .relay => "relay"
  | .delay => "delay"
  | .led => "led"
  | .torque => "torque"
  | .dynamicAdaptation => "dynamic_adaptation"
  | .other => "other"

/-- Numeric message-type code of a step, when it has one. -/
def stepCode (step : Json) : Option ℚ :=
  match jget step "T" with
  | some (.num q) => some q
  | _ => none

/-! ## Movement timing (`execute_step`, robot_control_frame.py lines 979-998) -/

/-- Current actuator pose, all fields numeric (`self.current_position` as the
code initialises and commits it: x, y, z, t floats). -/
structure Pose where
  x : ℚ
  y : ℚ
  z : ℚ
  t : ℚ

/-- Numeric view of a movement step (code 104): absolute target pose, with
`spd` optional because `execute_step` reads it via
`step.get("spd", self.default_spd)`. -/
structure MoveStep where
  x : ℚ
  y : ℚ
  z : ℚ
  t : ℚ
  spd : Option ℚ

/-- Engine timing tunables (`self.speed_scale`, `self.distance_scale`,
`self.base_delay`, `self.max_delay`). -/
structure EngineTunables where
  speed_scale : ℚ
  distance_scale : ℚ
  base_delay : ℚ
  max_delay : ℚ

/-- Default tunables set in `__init__` (1.0, 100.0, 0.5, 2.0) together with
`self.default_spd = 2.5`. -/
def defaultTunables : EngineTunables := ⟨1, 100, 1/2, 2⟩

/-- Default speed `self.default_spd = 2.5`. -/
def default_spd : ℚ := 5/2

/-- Largest per-axis distance between the current pose and the target of a
movement step: `mx = max(dx, dy, dz)` with `dx = abs(...)` etc. -/
def maxAxisDelta (p : Pose) (s : MoveStep) : ℚ :=
  max (|p.x - s.x|) (max (|p.y - s.y|) (|p.z - s.z|))

/-- Settle-time formula of the movement branch of `execute_step`:
`tc = (mx / distance_scale) * (speed_scale / spd) + base_delay`, clamped by
`tc = min(tc, max_delay)`. -/
def settle_time (tun : EngineTunables) (mx spd : ℚ) : ℚ :=
  min (mx / tun.distance_scale * (tun.speed_scale / spd) + tun.base_delay) tun.max_delay

/-- Movement branch of `execute_step` (code 104): computes the settle time
from the current pose, sends the frame, sleeps `tc`, then commits the target
pose under the movement lock. Returned as (sleep duration, new pose). -/
def execute_step_movement (tun : EngineTunables) (p : Pose) (s : MoveStep) : ℚ × Pose :=
  (settle_time tun (maxAxisDelta p s) (s.spd.getD default_spd), ⟨s.x, s.y, s.z, s.t⟩)

/-! ## Mission save / load (robot_control_frame.py lines 835-878) -/

/-- In-memory mission record `{"name": ..., "intro": ..., "steps": [...]}`.
Name and intro are kept as `Json` because a loaded header may carry any JSON
value in those positions. -/
structure Mission where
  name : Json
  intro : Json
  steps : List Json

/-- Serialisation performed by `save_mission`: the file is one JSON value per
line, first the header — written as `{"name": data["name"], "intro":
"Mission"}` with the intro hard-coded to the literal string `"Mission"` —
then each step in order. The file is modelled as the list of JSON values of
its lines (Python `json.dumps`/`json.loads` round-trips each line to the same
value). -/
def save_mission (m : Mission) : List Json :=
  Json.obj [("name", m.name), ("intro", Json.str "Mission")] :: m.steps

/-- Parsing performed by `load_mission` on an already line-split,
JSON-decoded file: header from line 0 with defaults
`header.get("name", "unnamed_mission")` and `header.get("intro", "Mission")`,
steps from all remaining lines in order. `none` models the `IndexError` on an
empty file. -/
def load_mission_lines (lines : List Json) : Option Mission :=
  match lines with
  | [] => none
  | header :: steps =>
    some { name := (jget header "name").getD (Json.str "unnamed_mission"),
           intro := (jget header "intro").getD (Json.str "Mission"),
           steps := steps }

/-- Sequence a list of per-line JSON parse results: `none` as soon as any
line failed to parse, mirroring the exception thrown inside the step list
comprehension of `load_mission`. -/
def seqLines : List (Option Json) → Option (List Json)
  | [] => some []
  | none :: _ => none
  | some j :: rest => (seqLines rest).map (fun js => j :: js)

/-- In-memory mission collection of one robot: `self.missions` (a dict keyed
by mission name) plus `self.selected_mission`. -/
structure MissionsState where
  missions : List (Json × Mission)
  selected : Option Json

/-- Python dict membership `name in self.missions`, with dict-key equality. -/
def keyMember (key : Json) : List (Json × Mission) → Bool
  | [] => false
  | (k, _) :: rest => jsonBeq k key || keyMember key rest

/-- Python dict assignment `self.missions[name] = value`: replace the binding
in place when the key exists, append otherwise. -/
def setKey : List (Json × Mission) → Json → Mission → List (Json × Mission)
  | [], key, v => [(key, v)]
  | (k, v₀) :: rest, key, v =>
    if jsonBeq k key then (key, v) :: rest else (k, v₀) :: setKey rest key v

/-- Full `load_mission` as a state transformer. The file argument is the
per-line JSON parse result of the chosen file (`none` = open or read
failure; a `none` entry = that line is not valid JSON). `confirm` is the
answer to the overwrite dialog when the mission name already exists. Every
failure path raises before `self.missions` or `self.selected_mission` is
touched, so the state is returned unchanged there. -/
def load_mission_op (st : MissionsState) (fileLines : Option (List (Option Json)))
    (confirm : Bool) : MissionsState :=
  match fileLines with
  | none => st
  | some lineResults =>
    match lineResults with
    | [] => st
    | headerResult :: stepResults =>
      match headerResult with
      | none => st
      | some header =>
        match seqLines stepResults with
        | none => st
        | some steps =>
          let name := (jget header "name").getD (Json.str "unnamed_mission")
          if keyMember name st.missions && !confirm then st
          else
            { missions := setKey st.missions name
                { name := name,
                  intro := (jget header "intro").getD (Json.str "Mission"),
                  steps := steps },
              selected := some name }

/-! ## Step reordering (`on_treeview_drop`, robot_control_frame.py lines 1131-1158) -/

/-- Python `list.insert(i, x)` for a non-negative index: both `take` and
`drop` clamp at the length, exactly as `insert` clamps to an append. -/
def pyInsert (l : List Json) (i : Nat) (x : Json) : List Json :=
  l.take i ++ x :: l.drop i

/-- Python `list.pop(i)` for a non-negative index: the removed element and
the remaining list, or `none` for the `IndexError` on an invalid index. -/
def pyPop (l : List Json) (i : Nat) : Option (Json × List Json) :=
  match l.get? i with
  | none => none
  | some x => some (x, l.take i ++ l.drop (i + 1))

/-- Reordering performed by `on_treeview_drop`: decrement the drop index by
one when it lies strictly after the drag start index, then pop the dragged
step and re-insert it at the adjusted index. `none` models the exception
path (list left unchanged). -/
def on_treeview_drop_move (steps : List Json) (start_index drop_index : Nat) :
    Option (List Json) :=
  let adjusted := if drop_index > start_index then drop_index - 1 else drop_index
  match pyPop steps start_index with
  | none => none
  | some (stp, rest) => some (pyInsert rest adjusted stp)

/-! ## Mission run start (`play_mission_specific`, robot_control_frame.py lines 918-950) -/

/-- Execution-engine state visible to `play_mission_specific`: how many run
threads are currently alive, and whether the shared
`mission_execution_stop_event` is set. Spawning `threading.Thread(...)` and
starting it is modelled as incrementing the live-run count (the previous
thread object is dropped but its thread keeps running). -/
structure ExecState where
  activeRuns : Nat
  stopEventSet : Bool
  deriving DecidableEq

/-- Entry logic of `play_mission_specific`: with no mission selected it
reports an error and changes nothing; otherwise — with no check whatsoever
on an already active run — it clears the shared stop event and starts one
more run thread. The Bool records whether a new run was started. -/
def play_mission_specific_start (selected : Option Json) (st : ExecState) :
    ExecState × Bool :=
  match selected with
  | none => (st, false)
  | some _ => ({ activeRuns := st.activeRuns + 1, stopEventSet := false }, true)

/-! ## Cooperative cancellation (`run_mission` inside `play_mission_specific`) -/

/-- Observation of `self.mission_execution_stop_event.is_set()` at the check
just before executing step number `checked` (checks are numbered by how many
steps have already executed). `cancelFrom = some k` means the event is set
from the k-th check onward — an `Event`, once set, stays set; `none` means it
is never set during the run. -/
def stop_event_is_set (cancelFrom : Option Nat) (checked : Nat) : Bool :=
  match cancelFrom with
  | none => false
  | some k => k ≤ checked

/-- Inner `for stp in steps` loop of `run_mission`: before each step the stop
event is checked; if set the run returns at once (Bool `true` = stopped),
otherwise the step executes and the count advances. -/
def run_steps_loop (steps : List Json) (executed : Nat) (cancelFrom : Option Nat) :
    Nat × Bool :=
  match steps with
  | [] => (executed, false)
  | _ :: rest =>
    if stop_event_is_set cancelFrom executed then (executed, true)
    else run_steps_loop rest (executed + 1) cancelFrom

/-- Outer `for _ in range(times)` loop of `run_mission`: repeat the inner
loop, propagating an early stop. -/
def run_repetitions (steps : List Json) (times executed : Nat) (cancelFrom : Option Nat) :
    Nat × Bool :=
  match times with
  | 0 => (executed, false)
  | t + 1 =>
    let r := run_steps_loop steps executed cancelFrom
    if r.2 then r else run_repetitions steps t r.1 cancelFrom

/-- Whole `run_mission` body: executed-step count and whether the run ended
by observing the cancellation flag (reported as "Mission execution stopped")
rather than by completing all repetitions. -/
def run_mission_model (steps : List Json) (times : Nat) (cancelFrom : Option Nat) :
    Nat × Bool :=
  run_repetitions steps times 0 cancelFrom

/-! ## Scheduler (`SchedulerFrame.monitor_task`, scheduler.py lines 196-269) -/

/-- Split a character list at every occurrence of the separator. -/
def splitOnChar (sep : Char) : List Char → List (List Char)
  | [] => [[]]
  | c :: cs =>
    let rest := splitOnChar sep cs
    if c = sep then [] :: rest
    else
      match rest with
      | [] => [[c]]
      | grp :: grps => (c :: grp) :: grps

/-- Value of a list of decimal digit characters. -/
def digitsVal (cs : List Char) : Nat :=
  cs.foldl (fun acc c => acc * 10 + (c.toNat - 48)) 0

/-- One numeric field of the `strptime` pattern: one or two digits whose
value lies in the closed range of the directive. -/
def parseNumField (cs : List Char) (lo hi : Nat) : Option Nat :=
  if cs.length = 0 ∨ 2 < cs.length then none
  else if cs.all Char.isDigit then
    let v := digitsVal cs
    if lo ≤ v ∧ v ≤ hi then some v else none
  else none

/-- The `datetime.strptime(s, "%I:%M:%S %p")` call of `monitor_task`, as a
seconds-of-day value: hour 1-12, minute and second 0-59, then AM/PM, with
12 AM mapping to hour 0 and 12 PM to hour 12. `none` models the
`ValueError` branch. -/
def parse_time_12h (s : String) : Option Nat :=
  match splitOnChar ' ' s.toList with
  | [hms, ampm] =>
    match splitOnChar ':' hms with
    | [hh, mm, ss] =>
      match parseNumField hh 1 12, parseNumField mm 0 59, parseNumField ss 0 59 with
      | some h, some m, some sec =>
        if ampm = ['A', 'M'] then some ((h % 12) * 3600 + m * 60 + sec)
        else if ampm = ['P', 'M'] then some ((h % 12 + 12) * 3600 + m * 60 + sec)
        else none
      | _, _, _ => none
    | _ => none
  | _ => none

/-- Scheduled task record as `add_to_schedule` builds it (the mutable
`status` field lives in the treeview and is reported through
`update_task_status`, modelled as emitted actions below). -/
structure Task where
  robot : String
  mission_file : String
  scheduled_time : String
  recurrence : String

/-- External facts one iteration of `monitor_task` depends on: the current
wall-clock time split into a day number and seconds into that day
(`datetime.now()`), and the outcome of opening the mission file and JSON
parsing its first line (`none` = any failure in that block). -/
structure SchedEnv where
  nowDay : ℤ
  nowSod : ℚ
  missionHeader : Option Json

/-- Observable effects of `monitor_task`: status updates pushed through
`update_task_status`, the sleep until the trigger, the attempt to open and
read the mission file, and the call into the execution engine
(`play_mission_specific(1)` on the resolved robot). -/
inductive MonAction where
  | setStatus (status : String)
  | sleepFor (secs : ℚ)
  | loadFile (path : String)
  | invokeEngine (robot : String) (times : Nat)
  deriving DecidableEq

/-- Whether the `while True` loop of `monitor_task` returns (`terminate`,
from `return` or `break`) or runs another iteration. -/
inductive MonOutcome where
  | terminate
  | again
  deriving DecidableEq

/-- Tail of a `monitor_task` iteration once the trigger datetime is fixed:
sleep if the wait is positive, set `Running`, open and parse the mission
file (status `Failed to Load` and return on failure), then resolve the
robot by name — executing the mission and setting `Completed` for Robot 1 or
Robot 2, or setting `Unknown Robot` and returning otherwise — and finally
apply the recurrence rule (`Once` breaks; `Daily`/`Weekly` set `Pending` and
loop; anything else loops silently). -/
def monitor_from_wait (task : Task) (env : SchedEnv) (schedDay : ℤ) (sod : Nat) :
    List MonAction × MonOutcome :=
  let wait : ℚ := (schedDay - env.nowDay) * 86400 + ((sod : ℚ) - env.nowSod)
  let sleepActs : List MonAction := if 0 < wait then [.sleepFor wait] else []
  let acts := sleepActs ++ [.setStatus "Running", .loadFile task.mission_file]
  match env.missionHeader with
  | none => (acts ++ [.setStatus "Failed to Load"], .terminate)
  | some _ =>
    if task.robot = "Robot 1" ∨ task.robot = "Robot 2" then
      let acts := acts ++ [.invokeEngine task.robot 1, .setStatus "Completed"]
      if task.recurrence = "Once" then (acts, .terminate)
      else if task.recurrence = "Daily" ∨ task.recurrence = "Weekly" then
        (acts ++ [.setStatus "Pending"], .again)
      else (acts, .again)
    else (acts ++ [.setStatus "Unknown Robot"], .terminate)

/-- One iteration of the `while True` loop of `monitor_task`: parse the
stored time-of-day (status `Invalid Time Format` and return on failure),
combine it with the current date, and when that datetime is already in the
past advance it by one day for `Daily`, seven for `Weekly`, and otherwise —
in particular for `Once` — set status `Time Passed` and return without
sleeping, loading or executing anything. -/
def monitor_iter (task : Task) (env : SchedEnv) : List MonAction × MonOutcome :=
  match parse_time_12h task.scheduled_time with
  | none => ([.setStatus "Invalid Time Format"], .terminate)
  | some sod =>
    if (sod : ℚ) < env.nowSod then
      if task.recurrence = "Daily" then monitor_from_wait task env (env.nowDay + 1) sod
      else if task.recurrence = "Weekly" then monitor_from_wait task env (env.nowDay + 7) sod
      else ([.setStatus "Time Passed"], .terminate)
    else monitor_from_wait task env env.nowDay sod

/-! ## Inbound telemetry (`handle_serial_data`, robot_control_frame.py lines 167-184) -/

/-- The raw `self.current_position` dict as the telemetry handler sees it:
each axis holds whatever JSON value was last stored for it. -/
structure PoseJ where
  x : Json
  y : Json
  z : Json
  t : Json

/-- Transcription of `handle_serial_data`: a frame whose `T` value equals
1051 rewrites, in one critical section under `self.movement_lock`, every
axis to `data.get(axis, current)` — the incoming value when the field is
present, the previous value otherwise. The `T == 105` branch and the unknown
branch leave the pose untouched. -/
def handle_serial_data (pos : PoseJ) (data : Json) : PoseJ :=
  if isCode 1051 (jget data "T") then
    { x := (jget data "x").getD pos.x,
      y := (jget data "y").getD pos.y,
      z := (jget data "z").getD pos.z,
      t := (jget data "t").getD pos.t }
  else pos

/-! ## Concrete sample data used to instantiate the theorems below -/

/-- Sample mission whose intro differs from the literal string Mission. -/
def mission_roundtrip_sample : Mission :=
  { name := Json.str "A", intro := Json.str "Intro text",
    steps := [Json.obj [("T", Json.num 111), ("cmd", Json.num 500)]] }

/-- Sample current pose at the origin. -/
def poseA : Pose := ⟨0, 0, 0, 0⟩

/-- Sample movement step targeting the origin at speed 1. -/
def moveA : MoveStep := ⟨0, 0, 0, 0, some 1⟩

/-- Sample movement step targeting (30, 40, 0) at speed 1. -/
def moveB : MoveStep := ⟨30, 40, 0, 0, some 1⟩

/-- Sample `Once` task scheduled for 11:00:00 AM. -/
def onceLateTask : Task := ⟨"Robot 1", "a.mission", "11:00:00 AM", "Once"⟩

/-- Sample environment: noon (43200 s into the day). -/
def noonEnv : SchedEnv := ⟨0, 43200, some Json.null⟩

/-- Sample task naming a robot the scheduler does not recognise. -/
def unknownRobotTask : Task := ⟨"Robot 3", "a.mission", "11:00:00 AM", "Once"⟩

/-- Sample environment: midnight, mission file fails to load. -/
def midnightNoFileEnv : SchedEnv := ⟨0, 0, none⟩

/-- Sample environment: midnight, mission file loads successfully. -/
def midnightFileEnv : SchedEnv := ⟨0, 0, some (Json.obj [("name", Json.str "A")])⟩

/-- Sample mission collection with no mission loaded or selected. -/
def emptyMState : MissionsState := ⟨[], none⟩

/-- Sample pose dict with distinct numeric axis values. -/
def samplePose : PoseJ := ⟨Json.num 1, Json.num 2, Json.num 3, Json.num 4⟩

/-- Sample pose-telemetry frame: x present, the other axes absent. -/
def sampleTelemetryFrame : Json := Json.obj [("T", Json.num 1051), ("x", Json.num 7)]

/-- Sample frame with a non-telemetry code. -/
def sampleOtherFrame : Json := Json.obj [("T", Json.num 104), ("x", Json.num 9)]

/-- Sample three-step list for the reorder witness. -/
def reorderSample : List Json := [Json.num 1, Json.num 2, Json.num 3]

/-! ## Theorems -/

/-- Claim C1 (counterexample): with one run already active
(`activeRuns = 1`), invoking `play_mission_specific` again does not fail —
it reports success and leaves two concurrent runs alive, with the shared
stop event cleared. This refutes the claim that a second invocation fails
with `AlreadyRunning`. -/
theorem play_second_run_cex :
    play_mission_specific_start (some (Json.str "M")) ⟨1, false⟩ = (⟨2, false⟩, true) := rfl

/-- Claim C1 (amended): whenever a mission is selected,
`play_mission_specific` performs no already-running check at all: it always
clears the shared cancellation event and starts one more concurrent run,
regardless of how many runs are already active. -/
theorem play_always_starts_run (m : Json) (st : ExecState) :
    play_mission_specific_start (some m) st
      = ({ activeRuns := st.activeRuns + 1, stopEventSet := false }, true) := rfl

/-- Claim C2: for every step, `get_step_type` equals the specification
classifier applied to the message-type code and the presence flags of the
two pwm fields — hence it is a pure function of exactly those inputs and of
nothing else, realising the table code 104 → Movement; 113 with both pwm
fields → Suction else Relay; 111 → Delay; 114 → LED; 210 → Torque;
112 → DynamicAdaptation; anything else → Other. -/
theorem get_step_type_matches_classify_spec (step : Json) :
    get_step_type step
      = (classify_spec (stepCode step) (jhas step "pwm_a") (jhas step "pwm_b")).typeName := by
  cases hT : jget step "T" with
  | none => simp [get_step_type, stepCode, hT, classify_spec, StepKind.typeName]
  | some v =>
    cases v
    all_goals simp only [get_step_type, stepCode, hT, classify_spec, StepKind.typeName]
    all_goals split_ifs <;> rfl

/-- The largest axis delta is a maximum of absolute values, hence
nonnegative. -/
lemma maxAxisDelta_nonneg (p : Pose) (s : MoveStep) : 0 ≤ maxAxisDelta p s :=
  le_trans (abs_nonneg _) (le_max_left _ _)

/-- With the default tunables the settle time never exceeds `max_delay`
(2 s): the final clamp takes a minimum with it. -/
lemma settle_time_le_max (mx spd : ℚ) : settle_time defaultTunables mx spd ≤ 2 :=
  min_le_right _ _

/-- With the default tunables the settle time is at least `base_delay`
(0.5 s) for a nonnegative distance and a positive speed. -/
lemma settle_time_ge_base (mx spd : ℚ) (h0 : 0 ≤ mx) (hs : 0 < spd) :
    1 / 2 ≤ settle_time defaultTunables mx spd := by
  have hterm : (0 : ℚ) ≤ mx / 100 * (1 / spd) := by positivity
  unfold settle_time defaultTunables
  simp only
  refine le_min (by linarith) (by norm_num)

/-- The settle time is monotone non-decreasing in the axis delta. -/
lemma settle_time_mono_mx (mxa mxb spd : ℚ) (h : mxa ≤ mxb) (hs : 0 < spd) :
    settle_time defaultTunables mxa spd ≤ settle_time defaultTunables mxb spd := by
  unfold settle_time defaultTunables
  simp only
  have h1 : (0 : ℚ) < 1 / spd := by positivity
  refine min_le_min (by nlinarith) le_rfl

/-- The settle time is monotone non-increasing in the speed. -/
lemma settle_time_anti_spd (mx sa sb : ℚ) (h0 : 0 ≤ mx) (ha : 0 < sa) (hab : sa ≤ sb) :
    settle_time defaultTunables mx sb ≤ settle_time defaultTunables mx sa := by
  unfold settle_time defaultTunables
  simp only
  have hb : 0 < sb := lt_of_lt_of_le ha hab
  have hinv : 1 / sb ≤ 1 / sa := one_div_le_one_div_of_le ha hab
  have hmx : (0 : ℚ) ≤ mx / 100 := by positivity
  refine min_le_min (by nlinarith) le_rfl

/-- Claim C3: for movement steps with positive effective speed, the settle
time computed by `execute_step` with the default tunables always lies in
the interval from `base_delay` (0.5) to `max_delay` (2), is monotone
non-decreasing in the largest axis delta at equal speed, and monotone
non-increasing in the speed at equal axis delta. -/
theorem movement_settle_time_props (p q : Pose) (s u : MoveStep)
    (hs : 0 < s.spd.getD default_spd) (hu : 0 < u.spd.getD default_spd) :
    (1 / 2 ≤ (execute_step_movement defaultTunables p s).1
      ∧ (execute_step_movement defaultTunables p s).1 ≤ 2)
    ∧ (maxAxisDelta p s ≤ maxAxisDelta q u → s.spd.getD default_spd = u.spd.getD default_spd →
        (execute_step_movement defaultTunables p s).1
          ≤ (execute_step_movement defaultTunables q u).1)
    ∧ (s.spd.getD default_spd ≤ u.spd.getD default_spd → maxAxisDelta p s = maxAxisDelta q u →
        (execute_step_movement defaultTunables q u).1
          ≤ (execute_step_movement defaultTunables p s).1) := by
  refine ⟨⟨settle_time_ge_base _ _ (maxAxisDelta_nonneg p s) hs, settle_time_le_max _ _⟩, ?_, ?_⟩
  · intro hmx hspd
    unfold execute_step_movement
    simp only
    rw [← hspd]
    exact settle_time_mono_mx _ _ _ hmx hs
  · intro hspd hmx
    unfold execute_step_movement
    simp only
    rw [← hmx]
    exact settle_time_anti_spd _ _ _ (maxAxisDelta_nonneg p s) hs hspd

/-- Claim C3 (witness): the hypotheses of `movement_settle_time_props` hold
at the sample poses and movement steps, and the bounds follow there. -/
theorem movement_settle_time_props_witness :
    (0 : ℚ) < moveA.spd.getD default_spd ∧ (0 : ℚ) < moveB.spd.getD default_spd
    ∧ (1 / 2 ≤ (execute_step_movement defaultTunables poseA moveA).1
        ∧ (execute_step_movement defaultTunables poseA moveA).1 ≤ 2) :=
  ⟨by norm_num [moveA, default_spd], by norm_num [moveB, default_spd],
    (movement_settle_time_props poseA poseA moveA moveB (by norm_num [moveA, default_spd])
      (by norm_num [moveB, default_spd])).1⟩

/-- Claim C4 (counterexample): saving and reloading a mission whose intro is
not the literal string Mission does not reproduce the mission: the saved
header always carries intro Mission, so the loaded header differs. -/
theorem mission_roundtrip_cex :
    load_mission_lines (save_mission mission_roundtrip_sample) ≠ some mission_roundtrip_sample := by
  simp [load_mission_lines, save_mission, mission_roundtrip_sample, jget, lookupField]

/-- Claim C4 (amended): saving a mission and loading the resulting file
reproduces the identical ordered step list and the identical name, while
the loaded intro is always the literal string Mission — so the header
round-trips identically exactly when the original intro was Mission (which
is what `create_mission` always assigns). -/
theorem mission_roundtrip_amended (m : Mission) :
    load_mission_lines (save_mission m)
      = some { name := m.name, intro := Json.str "Mission", steps := m.steps } := by
  simp [load_mission_lines, save_mission, jget, lookupField]

/-- Claim C5: for every valid drag start index, `on_treeview_drop` computes
pop-then-insert with the destination index decreased by one exactly when the
drop index is strictly greater than the start index; in particular moving
the step at index 0 to drop position 3 in a four-step list yields the same
list as removing index 0 and inserting at index 2. -/
theorem treeview_move_pop_insert (steps : List Json) (i j : Nat) (h : i < steps.length)
    (a b c d : Json) :
    on_treeview_drop_move steps i j
      = some (pyInsert (steps.take i ++ steps.drop (i + 1)) (if i < j then j - 1 else j)
          (steps.get ⟨i, h⟩))
    ∧ on_treeview_drop_move [a, b, c, d] 0 3 = some [b, c, a, d]
    ∧ pyInsert ([a, b, c, d].take 0 ++ [a, b, c, d].drop 1) 2 a = [b, c, a, d] := by
  refine ⟨?_, rfl, rfl⟩
  simp [on_treeview_drop_move, pyPop, List.getElem?_eq_getElem h, gt_iff_lt]

/-- Claim C5 (witness): the hypothesis of `treeview_move_pop_insert` holds
on the three-step sample, where moving index 1 to drop index 0 produces the
expected reordering. -/
theorem treeview_move_pop_insert_witness :
    1 < reorderSample.length
    ∧ on_treeview_drop_move reorderSample 1 0 = some [Json.num 2, Json.num 1, Json.num 3] := by
  refine ⟨by decide, ?_⟩
  have h := (treeview_move_pop_insert reorderSample 1 0 (by decide) Json.null Json.null
      Json.null Json.null).1
  rw [h]
  rfl

/-- Claim C6 witness helper: the sample time string parses to 39600 seconds
of day (11:00:00 AM). -/
lemma parse_eleven_am : parse_time_12h "11:00:00 AM" = some 39600 := by decide

/-- Claim C6: a task with recurrence Once whose parsed time-of-day lies
strictly before the current time of day makes `monitor_task` set status
Time Passed and return immediately — the emitted action list is exactly
that one status update, so the monitor never sleeps and never invokes the
execution engine. -/
theorem once_task_time_passed (task : Task) (env : SchedEnv) (sod : Nat)
    (hrec : task.recurrence = "Once")
    (hparse : parse_time_12h task.scheduled_time = some sod)
    (hpast : (sod : ℚ) < env.nowSod) :
    monitor_iter task env = ([.setStatus "Time Passed"], .terminate)
    ∧ (∀ r n, MonAction.invokeEngine r n ∉ (monitor_iter task env).1)
    ∧ (∀ q, MonAction.sleepFor q ∉ (monitor_iter task env).1) := by
  have hmain : monitor_iter task env = ([.setStatus "Time Passed"], .terminate) := by
    simp [monitor_iter, hparse, hpast, hrec]
  exact ⟨hmain, by simp [hmain], by simp [hmain]⟩

/-- Claim C6 (witness): the hypotheses of `once_task_time_passed` hold for
the sample Once task at 11:00:00 AM evaluated at noon, and the monitor
terminates with Time Passed there. -/
theorem once_task_time_passed_witness :
    onceLateTask.recurrence = "Once"
    ∧ parse_time_12h onceLateTask.scheduled_time = some 39600
    ∧ ((39600 : ℚ) < noonEnv.nowSod)
    ∧ monitor_iter onceLateTask noonEnv = ([.setStatus "Time Passed"], .terminate) :=
  ⟨rfl, by decide, by norm_num [noonEnv],
    (once_task_time_passed onceLateTask noonEnv 39600 rfl (by decide) (by norm_num [noonEnv])).1⟩

/-- Claim C7 (counterexample): a task whose robot identifier is unrecognised
does not necessarily reach the Unknown Robot status at all: because the
code loads the mission file before resolving the robot, a failing load
terminates the monitor with status Failed to Load and Unknown Robot is
never set, refuting the claim that the monitor resolves the robot and
terminates before loading the mission file. -/
theorem unknown_robot_status_cex :
    (unknownRobotTask.robot ≠ "Robot 1" ∧ unknownRobotTask.robot ≠ "Robot 2")
    ∧ monitor_iter unknownRobotTask midnightNoFileEnv
        = ([.sleepFor 39600, .setStatus "Running", .loadFile "a.mission",
            .setStatus "Failed to Load"], .terminate)
    ∧ MonAction.setStatus "Unknown Robot" ∉ (monitor_iter unknownRobotTask midnightNoFileEnv).1 := by
  have hmain : monitor_iter unknownRobotTask midnightNoFileEnv
      = ([.sleepFor 39600, .setStatus "Running", .loadFile "a.mission",
          .setStatus "Failed to Load"], .terminate) := by
    simp [monitor_iter, unknownRobotTask, midnightNoFileEnv, parse_eleven_am, monitor_from_wait]
  exact ⟨⟨by decide, by decide⟩, hmain, by simp [hmain]⟩

/-- Claim C7 (amended): for a task whose robot identifier is unrecognised,
the monitor sets status Running, loads the mission file first, and only
after a successful load resolves the robot: it then sets status Unknown
Robot and terminates, never invoking the execution engine. -/
theorem unknown_robot_after_load (task : Task) (env : SchedEnv) (sod : Nat) (header : Json)
    (h1 : task.robot ≠ "Robot 1") (h2 : task.robot ≠ "Robot 2")
    (hparse : parse_time_12h task.scheduled_time = some sod)
    (hfresh : env.nowSod ≤ (sod : ℚ))
    (hfile : env.missionHeader = some header) :
    monitor_iter task env
      = ((if 0 < (sod : ℚ) - env.nowSod then [MonAction.sleepFor ((sod : ℚ) - env.nowSod)] else [])
          ++ [.setStatus "Running", .loadFile task.mission_file, .setStatus "Unknown Robot"],
         .terminate)
    ∧ (∀ r n, MonAction.invokeEngine r n ∉ (monitor_iter task env).1) := by
  have hnot : ¬ ((sod : ℚ) < env.nowSod) := not_lt.mpr hfresh
  have hmain : monitor_iter task env
      = ((if 0 < (sod : ℚ) - env.nowSod then [MonAction.sleepFor ((sod : ℚ) - env.nowSod)] else [])
          ++ [.setStatus "Running", .loadFile task.mission_file, .setStatus "Unknown Robot"],
         .terminate) := by
    simp [monitor_iter, hparse, hnot, monitor_from_wait, hfile, h1, h2]
  refine ⟨hmain, ?_⟩
  intro r n
  by_cases hc : (0 : ℚ) < (sod : ℚ) - env.nowSod <;> simp [hmain, hc]

/-- Claim C7 (witness): the hypotheses of `unknown_robot_after_load` hold
for the sample unrecognised-robot task at midnight with a loadable mission
file, where the monitor sleeps, sets Running, loads the file and only then
sets Unknown Robot. -/
theorem unknown_robot_after_load_witness :
    unknownRobotTask.robot ≠ "Robot 1" ∧ unknownRobotTask.robot ≠ "Robot 2"
    ∧ parse_time_12h unknownRobotTask.scheduled_time = some 39600
    ∧ monitor_iter unknownRobotTask midnightFileEnv
        = ([.sleepFor 39600, .setStatus "Running", .loadFile "a.mission",
            .setStatus "Unknown Robot"], .terminate) := by
  refine ⟨by decide, by decide, by decide, ?_⟩
  have h := (unknown_robot_after_load unknownRobotTask midnightFileEnv 39600
      (Json.obj [("name", Json.str "A")]) (by decide) (by decide) (by decide)
      (by norm_num [midnightFileEnv]) rfl).1
  rw [h]
  norm_num [midnightFileEnv, unknownRobotTask]

/-- Equality of pairs of a number and a flag from equality of the
components. -/
lemma pair_eq {a c : Nat} {b d : Bool} (h1 : a = c) (h2 : b = d) : (a, b) = (c, d) := by
  subst h1
  subst h2
  rfl

/-- Unfolding of the inner step loop on a nonempty step list. -/
lemma run_steps_loop_cons (s : Json) (rest : List Json) (e : Nat) (c : Option Nat) :
    run_steps_loop (s :: rest) e c
      = if stop_event_is_set c e = true then (e, true) else run_steps_loop rest (e + 1) c := rfl

/-- Unfolding of the repetition loop on a positive repetition count. -/
lemma run_repetitions_succ (steps : List Json) (t e : Nat) (c : Option Nat) :
    run_repetitions steps (t + 1) e c
      = if (run_steps_loop steps e c).2 = true then run_steps_loop steps e c
        else run_repetitions steps t (run_steps_loop steps e c).1 c := rfl

/-- Closed form of the inner step loop under a flag set from check `k`
onward: the count advances to the list end or to `k`, whichever comes
first, and the loop stops early exactly when `k` falls inside it. -/
lemma run_steps_loop_eq (steps : List Json) : ∀ e k : Nat, e ≤ k →
    run_steps_loop steps e (some k)
      = (min (e + steps.length) k, decide (k < e + steps.length)) := by
  induction steps with
  | nil =>
    intro e k he
    refine pair_eq ?_ ?_
    · simp only [List.length_nil]
      omega
    · simp only [List.length_nil, Nat.add_zero]
      exact (decide_eq_false (by omega)).symm
  | cons s rest ih =>
    intro e k he
    by_cases hek : k ≤ e
    · have hset : stop_event_is_set (some k) e = true := by
        simp [stop_event_is_set]
        omega
      rw [run_steps_loop_cons, if_pos hset]
      refine pair_eq ?_ ?_
      · simp only [List.length_cons]
        omega
      · simp only [List.length_cons]
        exact (decide_eq_true (by omega)).symm
    · have hset : stop_event_is_set (some k) e = false := by
        simp [stop_event_is_set]
        omega
      rw [run_steps_loop_cons, hset, if_neg (by decide)]
      rw [ih (e + 1) k (by omega)]
      refine pair_eq ?_ ?_
      · simp only [List.length_cons]
        omega
      · simp only [List.length_cons]
        exact decide_eq_decide.mpr (by omega)

/-- Closed form of the repetition loop under a flag set from check `k`
onward. -/
lemma run_repetitions_eq (steps : List Json) : ∀ times e k : Nat, e ≤ k →
    run_repetitions steps times e (some k)
      = (min (e + steps.length * times) k, decide (k < e + steps.length * times)) := by
  intro times
  induction times with
  | zero =>
    intro e k he
    refine pair_eq ?_ ?_
    · simp only [Nat.mul_zero]
      omega
    · simp only [Nat.mul_zero, Nat.add_zero]
      exact (decide_eq_false (by omega)).symm
  | succ t ih =>
    intro e k he
    rw [run_repetitions_succ, run_steps_loop_eq steps e k he]
    by_cases hstop : k < e + steps.length
    · rw [if_pos (by simp [hstop])]
      obtain ⟨m, hm⟩ : ∃ m, steps.length * t = m := ⟨_, rfl⟩
      refine pair_eq ?_ ?_
      · simp only [Nat.mul_succ, hm]
        omega
      · simp only [Nat.mul_succ, hm]
        have h1 : decide (k < e + steps.length) = true := decide_eq_true hstop
        have h2 : decide (k < e + (m + steps.length)) = true := decide_eq_true (by omega)
        rw [h1, h2]
    · rw [if_neg (by simp [hstop])]
      have hmin : min (e + steps.length) k = e + steps.length := by omega
      rw [hmin, ih (e + steps.length) k (by omega)]
      obtain ⟨m, hm⟩ : ∃ m, steps.length * t = m := ⟨_, rfl⟩
      refine pair_eq ?_ ?_
      · simp only [Nat.mul_succ, hm]
        omega
      · simp only [Nat.mul_succ, hm]
        exact decide_eq_decide.mpr (by omega)

/-- Claim C8: when the cancellation event becomes set from the k-th step
boundary onward, the run executes exactly the first
`min (steps * repetitions) k` steps — never more than the k steps completed
before the flag was first observed — and it reports the stopped status
precisely when the flag was observed before the run would have completed. -/
theorem run_cancellation_bound (steps : List Json) (times k : Nat) :
    (run_mission_model steps times (some k)).1 = min (steps.length * times) k
    ∧ (run_mission_model steps times (some k)).1 ≤ k
    ∧ ((run_mission_model steps times (some k)).2 = true ↔ k < steps.length * times) := by
  unfold run_mission_model
  rw [run_repetitions_eq steps times 0 k (Nat.zero_le k)]
  refine ⟨by simp, by simp, by simp⟩

/-- A line list containing a failed parse makes `seqLines` fail. -/
lemma seqLines_of_mem_none : ∀ {l : List (Option Json)}, none ∈ l → seqLines l = none := by
  intro l
  induction l with
  | nil => intro h; simp at h
  | cons a rest ih =>
    intro h
    cases a with
    | none => rfl
    | some j =>
      have hr : none ∈ rest := by simpa using h
      simp [seqLines, ih hr]

/-- Claim C9: when the header line or any step line of a mission file is
not valid JSON, `load_mission` changes nothing: the mission collection and
the selected mission are returned exactly as they were (no partial load). -/
theorem load_invalid_json_unchanged (st : MissionsState) (lineResults : List (Option Json))
    (confirm : Bool) (hbad : none ∈ lineResults) :
    load_mission_op st (some lineResults) confirm = st := by
  cases lineResults with
  | nil => simp at hbad
  | cons h0 rest =>
    cases h0 with
    | none => rfl
    | some j =>
      have hr : none ∈ rest := by simpa using hbad
      simp [load_mission_op, seqLines_of_mem_none hr]

/-- Claim C9 (witness): the hypothesis of `load_invalid_json_unchanged`
holds for a file whose second line fails to parse, and loading it leaves
the empty mission collection unchanged. -/
theorem load_invalid_json_unchanged_witness :
    (none ∈ [some (Json.obj [("name", Json.str "A")]), none])
    ∧ load_mission_op emptyMState (some [some (Json.obj [("name", Json.str "A")]), none]) true
        = emptyMState :=
  ⟨by simp, load_invalid_json_unchanged emptyMState _ true (by simp)⟩

/-- The code test `data.get("T") == 1051` succeeds exactly on the numeric
value 1051. -/
lemma isCode_iff (c : ℚ) (v : Option Json) : isCode c v = true ↔ v = some (Json.num c) := by
  cases v with
  | none => simp [isCode]
  | some j => cases j <;> simp [isCode]

/-- Claim C10: an inbound frame with message-type code 1051 updates, in one
atomic critical section, each pose axis to the frame value when the field
is present and keeps the prior value when it is absent; a frame with any
other code (or no numeric code) leaves the pose entirely unchanged. -/
theorem pose_telemetry_update (pos : PoseJ) (data : Json) :
    (jget data "T" = some (Json.num 1051) →
       handle_serial_data pos data
         = { x := (jget data "x").getD pos.x, y := (jget data "y").getD pos.y,
             z := (jget data "z").getD pos.z, t := (jget data "t").getD pos.t }
       ∧ (∀ v, jget data "x" = some v → (handle_serial_data pos data).x = v)
       ∧ (jget data "x" = none → (handle_serial_data pos data).x = pos.x)
       ∧ (∀ v, jget data "y" = some v → (handle_serial_data pos data).y = v)
       ∧ (jget data "y" = none → (handle_serial_data pos data).y = pos.y)
       ∧ (∀ v, jget data "z" = some v → (handle_serial_data pos data).z = v)
       ∧ (jget data "z" = none → (handle_serial_data pos data).z = pos.z)
       ∧ (∀ v, jget data "t" = some v → (handle_serial_data pos data).t = v)
       ∧ (jget data "t" = none → (handle_serial_data pos data).t = pos.t))
    ∧ (jget data "T" ≠ some (Json.num 1051) → handle_serial_data pos data = pos) := by
  constructor
  · intro hT
    have hcode : isCode 1051 (jget data "T") = true := (isCode_iff 1051 _).mpr hT
    have hmain : handle_serial_data pos data
        = { x := (jget data "x").getD pos.x, y := (jget data "y").getD pos.y,
            z := (jget data "z").getD pos.z, t := (jget data "t").getD pos.t } := by
      simp [handle_serial_data, hcode]
    refine ⟨hmain, ?_, ?_, ?_, ?_, ?_, ?_, ?_, ?_⟩ <;> intros <;> rw [hmain] <;> simp_all
  · intro hT
    have hcode : isCode 1051 (jget data "T") = false := by
      cases hc : isCode 1051 (jget data "T")
      · rfl
      · exact absurd ((isCode_iff 1051 _).mp hc) hT
    simp [handle_serial_data, hcode]

/-- Claim C10 (witness): the hypotheses of `pose_telemetry_update` hold for
the sample frames — the 1051 frame sets the present axis and keeps the
absent one, and the code-104 frame leaves the pose unchanged. -/
theorem pose_telemetry_update_witness :
    (handle_serial_data samplePose sampleTelemetryFrame).x = Json.num 7
    ∧ (handle_serial_data samplePose sampleTelemetryFrame).y = samplePose.y
    ∧ handle_serial_data samplePose sampleOtherFrame = samplePose :=
  ⟨((pose_telemetry_update samplePose sampleTelemetryFrame).1 rfl).2.1 (Json.num 7) rfl,
   ((pose_telemetry_update samplePose sampleTelemetryFrame).1 rfl).2.2.2.2.1 rfl,
   (pose_telemetry_update samplePose sampleOtherFrame).2 (by
      intro h
      simp [sampleOtherFrame, jget, lookupField] at h)⟩

end RoArm

